import Mathlib

/-!
Verification of the Glassnode MCP server core
(src/glassnode_api.py and src/server.py) against its specification.

The embedding models Python dictionaries as association lists with
replace-in-place assignment (`dset`), mirrors the request construction of
`GlassnodeAPIClient._make_request`, `fetch_metric`, `fetch_bulk_metric`
and `get_metric_metadata`, and models the network as oracles: the
metadata response and the bulk response are inputs, and each function
returns the list of requests it issued together with its outcome.
-/

namespace Glassnode

/-- Python scalar values that occur in request parameters and metadata. -/
inductive PyVal where
  | str (s : String)
  | int (n : Int)
  | bool (b : Bool)
  | strlist (xs : List String)
deriving DecidableEq, Repr

/-- Python exceptions raised by the client
(ValueError, KeyError, httpx.HTTPStatusError / network errors). -/
inductive PyError where
  | valueError (msg : String)
  | keyError (key : String)
  | httpStatusError (msg : String)
deriving DecidableEq, Repr

/-- Python `str(e)` on the modelled exceptions.  `str` of a `KeyError`
is the `repr` of its key, hence the surrounding quotes. -/
def errStr : PyError → String
  | .valueError m => m
  | .keyError k => "'" ++ k ++ "'"
  | .httpStatusError m => m

/-- Python truthiness of the modelled values (`if x:`). -/
def truthy : PyVal → Bool
  | .str s => !(s == "")
  | .int n => !(n == 0)
  | .bool b => b
  | .strlist xs => !xs.isEmpty

/-- Python dict lookup `d[k]` / `d.get(k)` on the association-list model:
the value of the first (unique, when built by `dset`) binding of `k`. -/
def dget {α : Type} (d : List (String × α)) (k : String) : Option α :=
  match d with
  | [] => none
  | (k', v) :: rest => if k' = k then some v else dget rest k

/-- Python dict assignment `d[k] = v`: overwrite the existing binding in
place, else append a new binding (insertion order preserved). -/
def dset {α : Type} (d : List (String × α)) (k : String) (v : α) :
    List (String × α) :=
  match d with
  | [] => [(k, v)]
  | (k', v') :: rest =>
      if k' = k then (k, v) :: rest else (k', v') :: dset rest k v

/-- Python dict merge `{**d, **kw}` restricted to the second operand:
every binding of `kw` is assigned into `d`, in order. -/
def dmerge {α : Type} (d kw : List (String × α)) : List (String × α) :=
  kw.foldl (fun acc p => dset acc p.1 p.2) d

/-- The last binding of `k` in `kw`: the value `k` has after all of
`kw`'s bindings are assigned in order (for a genuine Python kwargs dict,
keys are unique and this is the plain lookup). -/
def klast {α : Type} (kw : List (String × α)) (k : String) : Option α :=
  match kw with
  | [] => none
  | (k', v) :: rest =>
      match klast rest k with
      | some w => some w
      | none => if k' = k then some v else none

theorem dget_dset_self {α : Type} (d : List (String × α)) (k : String)
    (v : α) : dget (dset d k v) k = some v := by
  induction d with
  | nil => simp [dget, dset]
  | cons p rest ih =>
      by_cases h : p.1 = k
      · simp [dget, dset, h]
      · simp [dget, dset, h, ih]

theorem dget_dset_ne {α : Type} (d : List (String × α)) (k k' : String)
    (v : α) (h : k' ≠ k) : dget (dset d k v) k' = dget d k' := by
  have hk : ¬ (k = k') := fun hh => h hh.symm
  induction d with
  | nil => simp [dget, dset, hk]
  | cons p rest ih =>
      by_cases hp : p.1 = k
      · simp [dget, dset, hp, hk]
      · by_cases hp' : p.1 = k'
        · simp [dget, dset, hp, hp', h]
        · simp [dget, dset, hp, hp', ih]

theorem dget_dmerge {α : Type} (kw d : List (String × α)) (k : String) :
    dget (dmerge d kw) k =
      match klast kw k with
      | some v => some v
      | none => dget d k := by
  induction kw generalizing d with
  | nil => simp [dmerge, klast]
  | cons p rest ih =>
      have hstep : dmerge d (p :: rest) = dmerge (dset d p.1 p.2) rest := rfl
      rw [hstep, ih]
      cases hr : klast rest k with
      | some w => simp [klast, hr]
      | none =>
          by_cases hp : p.1 = k
          · subst hp
            simp [klast, hr, dget_dset_self]
          · simp [klast, hr, hp, dget_dset_ne d p.1 k p.2 (fun hh => hp hh.symm)]

/-- Base URL of the remote service (`GlassnodeAPIClient.BASE_URL`). -/
def BASE_URL : String := "https://api.glassnode.com/v1"

/-- Maximum allowed timerange in days for bulk endpoints
(`GlassnodeAPIClient.BULK_MAX_DAYS`), kept as the Python dict it is. -/
def BULK_MAX_DAYS : List (String × Int) :=
  [("10m", 10), ("1h", 10), ("24h", 31), ("1w", 93), ("1month", 93)]

/-- Python `s.lstrip("/")`: remove every leading slash. -/
def lstripSlashes (s : String) : String :=
  String.mk (s.data.dropWhile (fun c => c = '/'))

/-- An outgoing HTTP GET request as `_make_request` issues it: the
endpoint (relative to `BASE_URL`) and the final query parameters. -/
structure Request where
  endpoint : String
  params : List (String × PyVal)
deriving DecidableEq, Repr

/-- The full URL of a request (`url = f"<BASE_URL>/<endpoint>"`). -/
def request_url (r : Request) : String := BASE_URL ++ "/" ++ r.endpoint

/-- The request-shaping part of `GlassnodeAPIClient._make_request`
(glassnode_api.py lines 60-71): add `api_key` to the parameters after
everything the caller merged, and strip leading slashes from the
endpoint.  The network send and response handling are modelled by the
oracles of the callers. -/
def make_request_prepare (api_key : String) (endpoint : String)
    (params : List (String × PyVal)) : Request :=
  { endpoint := lstripSlashes endpoint
    params := dset params "api_key" (PyVal.str api_key) }

/-- The request built by `GlassnodeAPIClient.get_metric_metadata`
(lines 102-121): `params = {"path": path}`, plus `a` when `asset` is
truthy, sent to the `metadata/metric` endpoint. -/
def get_metric_metadata_request (api_key : String) (path : String)
    (asset : Option String) : Request :=
  let params := dset ([] : List (String × PyVal)) "path" (PyVal.str path)
  let params :=
    match asset with
    | some a => if a == "" then params else dset params "a" (PyVal.str a)
    | none => params
  make_request_prepare api_key "metadata/metric" params

/-- The request built by `GlassnodeAPIClient.fetch_metric`
(lines 150-161): `params = {"a": asset, "f": format, **kwargs}`, then
`s`, `u`, `i` assigned only when the corresponding argument is not
None, sent to the endpoint `f"metrics{path}"`. -/
def fetch_metric_request (api_key : String) (path : String) (asset : String)
    (since untl : Option Int) (interval : Option String) (fmt : String)
    (kwargs : List (String × PyVal)) : Request :=
  let params := dmerge (dset (dset [] "a" (PyVal.str asset)) "f" (PyVal.str fmt)) kwargs
  let params :=
    match since with
    | some s => dset params "s" (PyVal.int s)
    | none => params
  let params :=
    match untl with
    | some u => dset params "u" (PyVal.int u)
    | none => params
  let params :=
    match interval with
    | some i => dset params "i" (PyVal.str i)
    | none => params
  make_request_prepare api_key ("metrics" ++ path) params

/-- `until_ts = int(time.time()) if until is None else until`
(line 218); the wall clock is the explicit `now` argument. -/
def resolve_until (now : Int) (untl : Option Int) : Int :=
  match untl with
  | none => now
  | some u => u

/-- The `since_ts` computation of `fetch_bulk_metric` (lines 226-235):
widest window when `since` is None, silent clamp when the requested
window exceeds `max_timerange`, else `since` unchanged. -/
def resolve_since (until_ts : Int) (max_timerange : Int)
    (since : Option Int) : Int :=
  match since with
  | none => until_ts - max_timerange
  | some s => if until_ts - s > max_timerange then until_ts - max_timerange else s

/-- `params = {"i": interval, "f": format, **kwargs}` followed by
`params["a"] = assets` when `assets` is truthy (lines 211-215). -/
def bulk_params_base (interval fmt : String) (kwargs : List (String × PyVal))
    (assets : Option (List String)) : List (String × PyVal) :=
  let params := dmerge (dset (dset [] "i" (PyVal.str interval)) "f" (PyVal.str fmt)) kwargs
  match assets with
  | some l => if l.isEmpty then params else dset params "a" (PyVal.strlist l)
  | none => params

/-- The `ValueError` message of the bulk-support gate (line 206). -/
def bulkUnsupportedMsg (path : String) : String :=
  "Metric '" ++ path ++ "' does not support bulk operations"

/-- `GlassnodeAPIClient.fetch_bulk_metric` (lines 163-240).  The network
is modelled by two oracles: `metaResp` is the outcome of the
`get_metric_metadata(path)` call it starts with, `bulkResp` the outcome
of the final bulk request.  The result is the ordered list of requests
actually issued together with the returned value or raised exception:
metadata lookup first, then the `bulk_supported` gate, then parameter
construction, the `BULK_MAX_DAYS[interval]` lookup (KeyError when the
interval is unknown), range resolution, and only then the bulk request. -/
def fetch_bulk_metric (api_key : String) (now : Int)
    (metaResp : Except PyError (List (String × PyVal)))
    (bulkResp : Except PyError PyVal)
    (path : String) (assets : Option (List String))
    (since untl : Option Int) (interval fmt : String)
    (kwargs : List (String × PyVal)) :
    List Request × Except PyError PyVal :=
  let metaReq := get_metric_metadata_request api_key path none
  match metaResp with
  | .error e => ([metaReq], .error e)
  | .ok metadata =>
      if truthy ((dget metadata "bulk_supported").getD (PyVal.bool false)) = false then
        ([metaReq], .error (.valueError (bulkUnsupportedMsg path)))
      else
        let bulk_path := path ++ "/bulk"
        let params := bulk_params_base interval fmt kwargs assets
        let until_ts := resolve_until now untl
        match dget BULK_MAX_DAYS interval with
        | none => ([metaReq], .error (.keyError interval))
        | some max_days =>
            let max_timerange := max_days * 24 * 60 * 60
            let since_ts := resolve_since until_ts max_timerange since
            let params := dset (dset params "s" (PyVal.int since_ts)) "u" (PyVal.int until_ts)
            ([metaReq, make_request_prepare api_key ("metrics" ++ bulk_path) params],
             bulkResp)

/-!
The server layer (server.py).  Each tool wraps one client call; the
client call's outcome (returned value or raised exception) is the
wrapper's input.  The JSON serialization that `get_metric_metadata`
applies (`json.dumps`) is elided: responses are modelled by their
pre-serialization dictionary values.
-/

/-- A value in a tool response dictionary: a string, or the opaque data
payload the client call returned. -/
inductive RespVal (α : Type) where
  | str (s : String)
  | data (a : α)
deriving DecidableEq, Repr

/-- The tagged result shape the specification asserts for every tool:
exactly `{"status": "success", "data": ...}` or
`{"status": "error", "message": ...}`. -/
def isTaggedResp {α : Type} : List (String × RespVal α) → Bool
  | [("status", .str "success"), ("data", .data _)] => true
  | [("status", .str "error"), ("message", .str _)] => true
  | _ => false

/-- Tool `fetch_metric` of server.py (lines 156-206): returns
`{"error": "Context not available"}` when `ctx` is None, else wraps the
client call in try/except, returning `{"status": "success", "data": data}`
or `{"status": "error", "message": str(e)}`. -/
def server_fetch_metric {α : Type} (ctxPresent : Bool)
    (call : Except PyError α) : List (String × RespVal α) :=
  if ctxPresent = false then [("error", RespVal.str "Context not available")]
  else
    match call with
    | .ok d => [("status", RespVal.str "success"), ("data", RespVal.data d)]
    | .error e => [("status", RespVal.str "error"), ("message", RespVal.str (errStr e))]

/-- Tool `fetch_bulk_metric` of server.py (lines 210-253): same wrapper
shape as `server_fetch_metric`, around the client's bulk call. -/
def server_fetch_bulk_metric (ctxPresent : Bool)
    (call : Except PyError PyVal) : List (String × RespVal PyVal) :=
  if ctxPresent = false then [("error", RespVal.str "Context not available")]
  else
    match call with
    | .ok d => [("status", RespVal.str "success"), ("data", RespVal.data d)]
    | .error e => [("status", RespVal.str "error"), ("message", RespVal.str (errStr e))]

/-- The tagged result shape, for a response dictionary whose values are
plain `PyVal` (as `get_metric_metadata`'s responses are). -/
def isTaggedPyResp : List (String × PyVal) → Bool
  | [("status", .str "success"), ("data", _)] => true
  | [("status", .str "error"), ("message", .str _)] => true
  | _ => false

/-- Tool `get_metric_metadata` of server.py (lines 133-151): returns
`json.dumps(metadata)` on success — the metadata itself, not a tagged
wrapper — and `json.dumps({"error": str(e)})` on any exception. -/
def server_get_metric_metadata
    (call : Except PyError (List (String × PyVal))) :
    List (String × PyVal) :=
  match call with
  | .ok md => md
  | .error e => [("error", PyVal.str (errStr e))]

/-- Modelled from the specification's words, for comparison with the
code: a resource name built from the path with a single leading slash
stripped ("it is passed through verbatim (after stripping a single
leading slash)"). -/
def claimed_resource_name (path : String) : String :=
  "metrics" ++
    (match path.data with
     | '/' :: rest => String.mk rest
     | _ => path)

theorem dget_dset {α : Type} (d : List (String × α)) (k k' : String) (v : α) :
    dget (dset d k v) k' = if k' = k then some v else dget d k' := by
  by_cases h : k' = k
  · subst h
    simp [dget_dset_self]
  · simp [h, dget_dset_ne d k k' v h]

theorem BULK_MAX_DAYS_pos (interval : String) (m : Int)
    (h : dget BULK_MAX_DAYS interval = some m) : 0 < m := by
  simp only [BULK_MAX_DAYS, dget] at h
  split_ifs at h <;> simp_all <;> omega

/-- Normal form of a successful `fetch_bulk_metric` run: the metadata
gate passes and the interval is in the table. -/
theorem fetch_bulk_metric_run (api_key : String) (now : Int)
    (md : List (String × PyVal)) (bulkResp : Except PyError PyVal)
    (path : String) (assets : Option (List String)) (since untl : Option Int)
    (interval fmt : String) (kwargs : List (String × PyVal)) (maxDays : Int)
    (hgate : truthy ((dget md "bulk_supported").getD (PyVal.bool false)) = true)
    (hmax : dget BULK_MAX_DAYS interval = some maxDays) :
    fetch_bulk_metric api_key now (.ok md) bulkResp path assets since untl
        interval fmt kwargs =
      ([get_metric_metadata_request api_key path none,
        make_request_prepare api_key ("metrics" ++ (path ++ "/bulk"))
          (dset (dset (bulk_params_base interval fmt kwargs assets) "s"
              (PyVal.int (resolve_since (resolve_until now untl)
                (maxDays * 24 * 60 * 60) since)))
            "u" (PyVal.int (resolve_until now untl)))],
       bulkResp) := by
  simp [fetch_bulk_metric, hgate, hmax]

/-- `fetch_bulk_metric` when the metadata gate reports no bulk support:
only the metadata request was issued, and a `ValueError` is raised. -/
theorem fetch_bulk_metric_gate_fail (api_key : String) (now : Int)
    (md : List (String × PyVal)) (bulkResp : Except PyError PyVal)
    (path : String) (assets : Option (List String)) (since untl : Option Int)
    (interval fmt : String) (kwargs : List (String × PyVal))
    (hgate : truthy ((dget md "bulk_supported").getD (PyVal.bool false)) = false) :
    fetch_bulk_metric api_key now (.ok md) bulkResp path assets since untl
        interval fmt kwargs =
      ([get_metric_metadata_request api_key path none],
       .error (.valueError (bulkUnsupportedMsg path))) := by
  simp [fetch_bulk_metric, hgate]

/-- `fetch_bulk_metric` when the gate passes but the interval has no
entry in `BULK_MAX_DAYS`: only the metadata request was issued, and the
table lookup raises a `KeyError`. -/
theorem fetch_bulk_metric_bad_interval (api_key : String) (now : Int)
    (md : List (String × PyVal)) (bulkResp : Except PyError PyVal)
    (path : String) (assets : Option (List String)) (since untl : Option Int)
    (interval fmt : String) (kwargs : List (String × PyVal))
    (hgate : truthy ((dget md "bulk_supported").getD (PyVal.bool false)) = true)
    (hmax : dget BULK_MAX_DAYS interval = none) :
    fetch_bulk_metric api_key now (.ok md) bulkResp path assets since untl
        interval fmt kwargs =
      ([get_metric_metadata_request api_key path none],
       .error (.keyError interval)) := by
  simp [fetch_bulk_metric, hgate, hmax]

/-- The slash strip of `_make_request` never fires on data endpoints:
the endpoint string starts with the letter m. -/
theorem lstripSlashes_metrics (p : String) :
    lstripSlashes ("metrics" ++ p) = "metrics" ++ p := by
  unfold lstripSlashes
  have h : ("metrics" ++ p).data = 'm' :: ("etrics".data ++ p.data) := by
    rw [String.data_append]
    rfl
  rw [h, List.dropWhile_cons]
  simp only [decide_eq_true_eq, reduceIte, Char.reduceEq]
  rw [← h]

/-- `fetch_bulk_metric` when the metadata lookup itself fails: the
exception propagates and only the metadata request was issued. -/
theorem fetch_bulk_metric_meta_error (api_key : String) (now : Int)
    (e : PyError) (bulkResp : Except PyError PyVal)
    (path : String) (assets : Option (List String)) (since untl : Option Int)
    (interval fmt : String) (kwargs : List (String × PyVal)) :
    fetch_bulk_metric api_key now (.error e) bulkResp path assets since untl
        interval fmt kwargs =
      ([get_metric_metadata_request api_key path none], .error e) := rfl

/-- C1 (corrected): at a concrete input with the unrecognized interval
code 5m and a bulk-supporting metric, the bulk fetch does fail with the
KeyError of the table lookup, but only after the metadata request was
issued — the request trace is not empty, contradicting the claim that
the failure occurs before any network request. -/
theorem C1_counterexample :
    (fetch_bulk_metric "KEY" 1700000000 (.ok [("bulk_supported", PyVal.bool true)])
        (.ok (PyVal.int 0)) "market/price_usd_close" none none none "5m" "json" []).2
      = .error (.keyError "5m") ∧
    (fetch_bulk_metric "KEY" 1700000000 (.ok [("bulk_supported", PyVal.bool true)])
        (.ok (PyVal.int 0)) "market/price_usd_close" none none none "5m" "json" []).1
      = [get_metric_metadata_request "KEY" "market/price_usd_close" none] := by
  exact ⟨rfl, rfl⟩

/-- C1 (amended): for every interval code not in the five-entry
lookback table, when the metadata gate reports bulk support, the bulk
fetch fails with the KeyError of the `BULK_MAX_DAYS` lookup — no silent
default — after issuing exactly the metadata lookup request and before
issuing the bulk request. -/
theorem C1_unknown_interval_fails_after_metadata (api_key : String) (now : Int)
    (md : List (String × PyVal)) (bulkResp : Except PyError PyVal)
    (path : String) (assets : Option (List String)) (since untl : Option Int)
    (interval fmt : String) (kwargs : List (String × PyVal))
    (hgate : truthy ((dget md "bulk_supported").getD (PyVal.bool false)) = true)
    (hmax : dget BULK_MAX_DAYS interval = none) :
    fetch_bulk_metric api_key now (.ok md) bulkResp path assets since untl
        interval fmt kwargs =
      ([get_metric_metadata_request api_key path none],
       .error (.keyError interval)) :=
  fetch_bulk_metric_bad_interval api_key now md bulkResp path assets since untl
    interval fmt kwargs hgate hmax

/-- Witness for C1 at interval 5m. -/
theorem C1_witness :
    fetch_bulk_metric "KEY" 1700000000 (.ok [("bulk_supported", PyVal.bool true)])
        (.ok (PyVal.int 0)) "made/up/path" (some ["BTC"]) (some 1) (some 2) "5m" "json" [] =
      ([get_metric_metadata_request "KEY" "made/up/path" none],
       .error (.keyError "5m")) :=
  C1_unknown_interval_fails_after_metadata "KEY" 1700000000
    [("bulk_supported", PyVal.bool true)] (.ok (PyVal.int 0)) "made/up/path"
    (some ["BTC"]) (some 1) (some 2) "5m" "json" [] (by decide) (by decide)

/-- C4 (confirmed): whenever the metadata reports `bulk_supported` as
false or lacks the key, `fetch_bulk_metric` issues only the metadata
request — never the bulk request — and raises a ValueError whose exact
message names the path; the server tool converts it to the tagged error
result with that same message. -/
theorem C4_gate_blocks_bulk (api_key : String) (now : Int)
    (md : List (String × PyVal)) (bulkResp : Except PyError PyVal)
    (path : String) (assets : Option (List String)) (since untl : Option Int)
    (interval fmt : String) (kwargs : List (String × PyVal))
    (hflag : dget md "bulk_supported" = some (PyVal.bool false) ∨
      dget md "bulk_supported" = none) :
    fetch_bulk_metric api_key now (.ok md) bulkResp path assets since untl
        interval fmt kwargs =
      ([get_metric_metadata_request api_key path none],
       .error (.valueError
         ("Metric '" ++ path ++ "' does not support bulk operations"))) ∧
    server_fetch_bulk_metric true
        (fetch_bulk_metric api_key now (.ok md) bulkResp path assets since untl
          interval fmt kwargs).2 =
      [("status", RespVal.str "error"),
       ("message", RespVal.str
         ("Metric '" ++ path ++ "' does not support bulk operations"))] := by
  have hgate : truthy ((dget md "bulk_supported").getD (PyVal.bool false)) = false := by
    rcases hflag with h | h <;> simp [h, truthy]
  have hrun := fetch_bulk_metric_gate_fail api_key now md bulkResp path assets
    since untl interval fmt kwargs hgate
  constructor
  · simpa [bulkUnsupportedMsg] using hrun
  · rw [hrun]
    simp [server_fetch_bulk_metric, errStr, bulkUnsupportedMsg]

/-- Witness for C4: scenario 4 of the specification, at path
made/up/path with `bulk_supported = false`. -/
theorem C4_witness :
    fetch_bulk_metric "KEY" 1700000000 (.ok [("bulk_supported", PyVal.bool false)])
        (.ok (PyVal.int 0)) "made/up/path" none none none "24h" "json" [] =
      ([get_metric_metadata_request "KEY" "made/up/path" none],
       .error (.valueError
         ("Metric '" ++ "made/up/path" ++ "' does not support bulk operations"))) ∧
    server_fetch_bulk_metric true
        (fetch_bulk_metric "KEY" 1700000000
          (.ok [("bulk_supported", PyVal.bool false)]) (.ok (PyVal.int 0))
          "made/up/path" none none none "24h" "json" []).2 =
      [("status", RespVal.str "error"),
       ("message", RespVal.str
         ("Metric '" ++ "made/up/path" ++ "' does not support bulk operations"))] :=
  C4_gate_blocks_bulk "KEY" 1700000000 [("bulk_supported", PyVal.bool false)]
    (.ok (PyVal.int 0)) "made/up/path" none none none "24h" "json" []
    (Or.inl (by decide))

/-- C5 (confirmed): for every recognized interval and every input whose
`since` is omitted or at most the resolved `until`, the resolved range
is nonnegative and at most `maxDays * 86400` seconds wide, and the
resolved `until` is the caller's `until` when given and the wall clock
when not. -/
theorem C5_range_invariant (now : Int) (untl since : Option Int)
    (interval : String) (maxDays : Int)
    (hmax : dget BULK_MAX_DAYS interval = some maxDays)
    (hsince : since = none ∨ ∃ s, since = some s ∧ s ≤ resolve_until now untl) :
    (0 ≤ resolve_until now untl -
        resolve_since (resolve_until now untl) (maxDays * 24 * 60 * 60) since ∧
      resolve_until now untl -
        resolve_since (resolve_until now untl) (maxDays * 24 * 60 * 60) since ≤
        maxDays * 86400) ∧
    (∀ u, untl = some u → resolve_until now untl = u) ∧
    (untl = none → resolve_until now untl = now) := by
  have hpos := BULK_MAX_DAYS_pos interval maxDays hmax
  refine ⟨?_, ?_, ?_⟩
  · rcases hsince with h | ⟨s, h, hs⟩ <;> subst h
    · simp only [resolve_since]
      omega
    · simp only [resolve_since]
      split_ifs <;> omega
  · intro u hu
    simp [resolve_until, hu]
  · intro hu
    simp [resolve_until, hu]

/-- Witness for C5 at interval 24h, `until = 1700000000`,
`since = 1699000000`. -/
theorem C5_witness :
    (0 ≤ resolve_until 0 (some 1700000000) -
        resolve_since (resolve_until 0 (some 1700000000)) (31 * 24 * 60 * 60)
          (some 1699000000) ∧
      resolve_until 0 (some 1700000000) -
        resolve_since (resolve_until 0 (some 1700000000)) (31 * 24 * 60 * 60)
          (some 1699000000) ≤ 31 * 86400) ∧
    (∀ u, (some 1700000000 : Option Int) = some u →
      resolve_until 0 (some 1700000000) = u) ∧
    ((some 1700000000 : Option Int) = none →
      resolve_until 0 (some 1700000000) = 0) :=
  C5_range_invariant 0 (some 1700000000) (some 1699000000) "24h" 31 (by decide)
    (Or.inr ⟨1699000000, rfl, by norm_num [resolve_until]⟩)

/-- C6 (confirmed): for every recognized interval, when `since` is
provided the bulk request is issued with an `s` parameter that is the
silent clamp: `untilResolved - maxDays*86400` when the requested window
exceeds `maxDays*86400` seconds, `since` unchanged otherwise. -/
theorem C6_clamped_since (api_key : String) (now : Int)
    (md : List (String × PyVal)) (bulkResp : Except PyError PyVal)
    (path : String) (assets : Option (List String)) (s : Int)
    (untl : Option Int) (interval fmt : String)
    (kwargs : List (String × PyVal)) (maxDays : Int)
    (hgate : truthy ((dget md "bulk_supported").getD (PyVal.bool false)) = true)
    (hmax : dget BULK_MAX_DAYS interval = some maxDays) :
    ∃ r : Request,
      (fetch_bulk_metric api_key now (.ok md) bulkResp path assets (some s)
          untl interval fmt kwargs).1 =
        [get_metric_metadata_request api_key path none, r] ∧
      dget r.params "s" =
        some (PyVal.int
          (if resolve_until now untl - s > maxDays * 86400 then
            resolve_until now untl - maxDays * 86400
          else s)) := by
  rw [fetch_bulk_metric_run api_key now md bulkResp path assets (some s) untl
    interval fmt kwargs maxDays hgate hmax]
  refine ⟨_, rfl, ?_⟩
  have h86 : maxDays * 24 * 60 * 60 = maxDays * 86400 := by ring
  simp [make_request_prepare, dget_dset, resolve_since, h86]

/-- Witness for C6: scenario 2 of the specification — interval 1h,
`until = 1700000000`, `since = 1699000000` is clamped to 1699136000. -/
theorem C6_witness :
    ∃ r : Request,
      (fetch_bulk_metric "KEY" 1712345678 (.ok [("bulk_supported", PyVal.bool true)])
          (.ok (PyVal.int 0)) "market/price_usd_close" none (some 1699000000)
          (some 1700000000) "1h" "json" []).1 =
        [get_metric_metadata_request "KEY" "market/price_usd_close" none, r] ∧
      dget r.params "s" = some (PyVal.int 1699136000) := by
  have h := C6_clamped_since "KEY" 1712345678 [("bulk_supported", PyVal.bool true)]
    (.ok (PyVal.int 0)) "market/price_usd_close" none 1699000000
    (some 1700000000) "1h" "json" [] 10 (by decide) (by decide)
  simpa [resolve_until] using h

/-- C7 (corrected): the resolved `since` for interval 24h with
`until = 1700000000` and `since` omitted is 1697321600
(`1700000000 - 31*86400` where `31*86400 = 2678400`), not the 1697322400
the claim states. -/
theorem C7_counterexample :
    dget BULK_MAX_DAYS "24h" = some 31 ∧
    resolve_since 1700000000 (31 * 24 * 60 * 60) none = 1697321600 ∧
    resolve_since 1700000000 (31 * 24 * 60 * 60) none ≠ 1697322400 := by
  refine ⟨by decide, by decide, by decide⟩

/-- C7 (amended): for every recognized interval, when `since` is
omitted the bulk request is issued with
`s = untilResolved - maxDays*86400`; in particular for interval 24h
with `until = 1700000000` the resolved `since` is 1697321600. -/
theorem C7_default_window (api_key : String) (now : Int)
    (md : List (String × PyVal)) (bulkResp : Except PyError PyVal)
    (path : String) (assets : Option (List String)) (untl : Option Int)
    (interval fmt : String) (kwargs : List (String × PyVal)) (maxDays : Int)
    (hgate : truthy ((dget md "bulk_supported").getD (PyVal.bool false)) = true)
    (hmax : dget BULK_MAX_DAYS interval = some maxDays) :
    ∃ r : Request,
      (fetch_bulk_metric api_key now (.ok md) bulkResp path assets none untl
          interval fmt kwargs).1 =
        [get_metric_metadata_request api_key path none, r] ∧
      dget r.params "s" =
        some (PyVal.int (resolve_until now untl - maxDays * 86400)) := by
  rw [fetch_bulk_metric_run api_key now md bulkResp path assets none untl
    interval fmt kwargs maxDays hgate hmax]
  refine ⟨_, rfl, ?_⟩
  have h86 : maxDays * 24 * 60 * 60 = maxDays * 86400 := by ring
  simp [make_request_prepare, dget_dset, resolve_since, h86]

/-- Witness for C7: scenario 1 with the corrected value 1697321600. -/
theorem C7_witness :
    ∃ r : Request,
      (fetch_bulk_metric "KEY" 1712345678 (.ok [("bulk_supported", PyVal.bool true)])
          (.ok (PyVal.int 0)) "market/price_usd_close" none none
          (some 1700000000) "24h" "json" []).1 =
        [get_metric_metadata_request "KEY" "market/price_usd_close" none, r] ∧
      dget r.params "s" = some (PyVal.int 1697321600) := by
  have h := C7_default_window "KEY" 1712345678 [("bulk_supported", PyVal.bool true)]
    (.ok (PyVal.int 0)) "market/price_usd_close" none (some 1700000000)
    "24h" "json" [] 31 (by decide) (by decide)
  simpa [resolve_until] using h

/-- C2 (corrected): at a concrete input, the single-metric query built
with named `format = "json"` and an extraParams binding `f = "csv"`
carries `f = "csv"` — the extraParams key wins over the named
parameter, refuting the claim that named parameters always win. -/
theorem C2_counterexample :
    dget (fetch_metric_request "KEY" "market/price_usd_close" "BTC" none none
        none "json" [("f", PyVal.str "csv")]).params "f"
      = some (PyVal.str "csv") ∧
    some (PyVal.str "csv") ≠ some (PyVal.str "json") := by
  exact ⟨rfl, by decide⟩

/-- C2 (amended): named parameters win only for the keys assigned after
the `**kwargs` merge — `s`, `u`, `i` in the single-metric query and
`s`, `u`, `a` in the bulk query — while the keys placed in the initial
dict literal before the merge (`a` and `f` in the single-metric query,
`i` and `f` in the bulk query) are overridden by same-named extraParams
keys. -/
theorem C2_precedence (api_key path asset : String) (since untl : Option Int)
    (intv : Option String) (fmt : String) (kwargs : List (String × PyVal))
    (now : Int) (md : List (String × PyVal)) (bulkResp : Except PyError PyVal)
    (assets : Option (List String)) (interval : String) (maxDays : Int)
    (hgate : truthy ((dget md "bulk_supported").getD (PyVal.bool false)) = true)
    (hmax : dget BULK_MAX_DAYS interval = some maxDays) :
    (∀ s, since = some s →
      dget (fetch_metric_request api_key path asset since untl intv fmt
        kwargs).params "s" = some (PyVal.int s)) ∧
    (∀ u, untl = some u →
      dget (fetch_metric_request api_key path asset since untl intv fmt
        kwargs).params "u" = some (PyVal.int u)) ∧
    (∀ i, intv = some i →
      dget (fetch_metric_request api_key path asset since untl intv fmt
        kwargs).params "i" = some (PyVal.str i)) ∧
    (∀ v, klast kwargs "f" = some v →
      dget (fetch_metric_request api_key path asset since untl intv fmt
        kwargs).params "f" = some v) ∧
    (∀ v, klast kwargs "a" = some v →
      dget (fetch_metric_request api_key path asset since untl intv fmt
        kwargs).params "a" = some v) ∧
    (∃ r : Request,
      (fetch_bulk_metric api_key now (.ok md) bulkResp path assets since untl
          interval fmt kwargs).1 =
        [get_metric_metadata_request api_key path none, r] ∧
      dget r.params "s" = some (PyVal.int (resolve_since (resolve_until now untl)
        (maxDays * 24 * 60 * 60) since)) ∧
      dget r.params "u" = some (PyVal.int (resolve_until now untl)) ∧
      (∀ l, assets = some l → l.isEmpty = false →
        dget r.params "a" = some (PyVal.strlist l)) ∧
      (∀ v, klast kwargs "f" = some v → dget r.params "f" = some v) ∧
      (∀ v, klast kwargs "i" = some v → dget r.params "i" = some v)) := by
  refine ⟨?_, ?_, ?_, ?_, ?_, ?_⟩
  · rintro s rfl
    rcases untl with _ | u <;> rcases intv with _ | i <;>
      simp [fetch_metric_request, make_request_prepare, dget_dset]
  · rintro u rfl
    rcases since with _ | s <;> rcases intv with _ | i <;>
      simp [fetch_metric_request, make_request_prepare, dget_dset]
  · rintro i rfl
    rcases since with _ | s <;> rcases untl with _ | u <;>
      simp [fetch_metric_request, make_request_prepare, dget_dset]
  · intro v hv
    rcases since with _ | s <;> rcases untl with _ | u <;> rcases intv with _ | i <;>
      simp [fetch_metric_request, make_request_prepare, dget_dset, dget_dmerge, hv]
  · intro v hv
    rcases since with _ | s <;> rcases untl with _ | u <;> rcases intv with _ | i <;>
      simp [fetch_metric_request, make_request_prepare, dget_dset, dget_dmerge, hv]
  · rw [fetch_bulk_metric_run api_key now md bulkResp path assets since untl
      interval fmt kwargs maxDays hgate hmax]
    refine ⟨_, rfl, ?_, ?_, ?_, ?_, ?_⟩
    · simp [make_request_prepare, dget_dset]
    · simp [make_request_prepare, dget_dset]
    · rintro l rfl hl
      simp [make_request_prepare, dget_dset, bulk_params_base, hl]
    · intro v hv
      rcases assets with _ | l
      · simp [make_request_prepare, dget_dset, bulk_params_base, dget_dmerge, hv]
      · rcases hl : l.isEmpty <;>
          simp [make_request_prepare, dget_dset, bulk_params_base, hl,
            dget_dmerge, hv]
    · intro v hv
      rcases assets with _ | l
      · simp [make_request_prepare, dget_dset, bulk_params_base, dget_dmerge, hv]
      · rcases hl : l.isEmpty <;>
          simp [make_request_prepare, dget_dset, bulk_params_base, hl,
            dget_dmerge, hv]

/-- Witness for C2: the named `since` wins over extraParams while the
extraParams `f` wins over the named format. -/
theorem C2_witness :
    dget (fetch_metric_request "KEY" "market/price_usd_close" "BTC" (some 1)
        (some 2) (some "1h") "json" [("f", PyVal.str "csv")]).params "s"
      = some (PyVal.int 1) ∧
    dget (fetch_metric_request "KEY" "market/price_usd_close" "BTC" (some 1)
        (some 2) (some "1h") "json" [("f", PyVal.str "csv")]).params "f"
      = some (PyVal.str "csv") := by
  have h := C2_precedence "KEY" "market/price_usd_close" "BTC" (some 1) (some 2)
    (some "1h") "json" [("f", PyVal.str "csv")] 0
    [("bulk_supported", PyVal.bool true)] (.ok (PyVal.int 0)) none "24h" 31
    (by decide) (by decide)
  exact ⟨h.1 1 rfl, h.2.2.2.1 (PyVal.str "csv") rfl⟩

/-- C3 (corrected): at a concrete failing input, the metadata tool
returns `{"error": "boom"}`, which is not of the tagged shape
`{status, data}` / `{status, message}` the claim asserts for every
exposed tool. -/
theorem C3_counterexample :
    server_get_metric_metadata (.error (.valueError "boom"))
      = [("error", PyVal.str "boom")] ∧
    isTaggedPyResp [("error", PyVal.str "boom")] = false := by
  exact ⟨rfl, rfl⟩

/-- C3 (amended): `fetch_metric` and `fetch_bulk_metric` return the
tagged `{status, data}` / `{status, message}` result for every client
outcome when the context is available, and the untagged
`{"error": "Context not available"}` dictionary when it is not;
`get_metric_metadata` never uses the tagged shape — it returns the raw
metadata on success and `{"error": message}` on failure.  All three are
total on the modelled outcomes: every failure becomes a returned
dictionary, none is re-raised. -/
theorem C3_tool_result_shapes :
    (∀ (α : Type) (call : Except PyError α),
      isTaggedResp (server_fetch_metric true call) = true) ∧
    (∀ call : Except PyError PyVal,
      isTaggedResp (server_fetch_bulk_metric true call) = true) ∧
    (∀ (α : Type) (call : Except PyError α),
      server_fetch_metric false call
        = [("error", RespVal.str "Context not available")]) ∧
    (∀ call : Except PyError PyVal,
      server_fetch_bulk_metric false call
        = [("error", RespVal.str "Context not available")]) ∧
    (∀ md : List (String × PyVal), server_get_metric_metadata (.ok md) = md) ∧
    (∀ e : PyError,
      server_get_metric_metadata (.error e) = [("error", PyVal.str (errStr e))] ∧
      isTaggedPyResp (server_get_metric_metadata (.error e)) = false) := by
  refine ⟨?_, ?_, ?_, ?_, ?_, ?_⟩
  · intro α call
    rcases call with e | d <;> rfl
  · intro call
    rcases call with e | d <;> rfl
  · intro α call
    rfl
  · intro call
    rfl
  · intro md
    rfl
  · intro e
    exact ⟨rfl, rfl⟩

/-- C8 (corrected): at the concrete path /market/price_usd_close the
resource name actually sent keeps the leading slash — it is
metrics/market/price_usd_close, not the
metricsmarket/price_usd_close that stripping one leading slash from
the path would give. -/
theorem C8_counterexample :
    (fetch_metric_request "KEY" "/market/price_usd_close" "BTC" none none none
        "json" []).endpoint = "metrics/market/price_usd_close" ∧
    claimed_resource_name "/market/price_usd_close"
      = "metricsmarket/price_usd_close" ∧
    (fetch_metric_request "KEY" "/market/price_usd_close" "BTC" none none none
        "json" []).endpoint ≠ claimed_resource_name "/market/price_usd_close" := by
  refine ⟨by decide, by decide, by decide⟩

/-- C8 (amended): the caller's path is embedded completely verbatim —
no leading slash is ever removed from it, because the lstrip of
`_make_request` applies to the endpoint string, which always starts
with the literal prefix metrics: the single-metric resource name is
exactly `"metrics" ++ path`, the bulk resource name is exactly
`"metrics" ++ path ++ "/bulk"`, and the metadata lookup sends the path
verbatim as its `path` query parameter. -/
theorem C8_path_verbatim (api_key path asset : String) (since untl : Option Int)
    (intv : Option String) (fmt : String) (kwargs : List (String × PyVal))
    (now : Int) (md : List (String × PyVal)) (bulkResp : Except PyError PyVal)
    (assets : Option (List String)) (interval : String) (maxDays : Int)
    (hgate : truthy ((dget md "bulk_supported").getD (PyVal.bool false)) = true)
    (hmax : dget BULK_MAX_DAYS interval = some maxDays) :
    (fetch_metric_request api_key path asset since untl intv fmt
        kwargs).endpoint = "metrics" ++ path ∧
    (∃ r : Request,
      (fetch_bulk_metric api_key now (.ok md) bulkResp path assets since untl
          interval fmt kwargs).1 =
        [get_metric_metadata_request api_key path none, r] ∧
      r.endpoint = "metrics" ++ (path ++ "/bulk")) ∧
    dget (get_metric_metadata_request api_key path none).params "path"
      = some (PyVal.str path) := by
  refine ⟨?_, ?_, ?_⟩
  · simp [fetch_metric_request, make_request_prepare, lstripSlashes_metrics]
  · rw [fetch_bulk_metric_run api_key now md bulkResp path assets since untl
      interval fmt kwargs maxDays hgate hmax]
    exact ⟨_, rfl, lstripSlashes_metrics (path ++ "/bulk")⟩
  · simp [get_metric_metadata_request, make_request_prepare, dget_dset]

/-- Witness for C8 at a path with no leading slash. -/
theorem C8_witness :
    (fetch_metric_request "KEY" "market/price_usd_close" "BTC" none none none
        "json" []).endpoint = "metrics" ++ "market/price_usd_close" ∧
    (∃ r : Request,
      (fetch_bulk_metric "KEY" 0 (.ok [("bulk_supported", PyVal.bool true)])
          (.ok (PyVal.int 0)) "market/price_usd_close" none none none "24h"
          "json" []).1 =
        [get_metric_metadata_request "KEY" "market/price_usd_close" none, r] ∧
      r.endpoint = "metrics" ++ ("market/price_usd_close" ++ "/bulk")) ∧
    dget (get_metric_metadata_request "KEY" "market/price_usd_close" none).params
        "path" = some (PyVal.str "market/price_usd_close") :=
  C8_path_verbatim "KEY" "market/price_usd_close" "BTC" none none none "json" []
    0 [("bulk_supported", PyVal.bool true)] (.ok (PyVal.int 0)) none "24h" 31
    (by decide) (by decide)

/-- C9 (corrected): at a concrete input where the `since` argument is
absent but extraParams binds `s`, the single-metric request does carry
an `s` entry, refuting the claim that the single-metric request omits
`s` entirely whenever the corresponding argument is absent. -/
theorem C9_counterexample :
    dget (fetch_metric_request "KEY" "market/price_usd_close" "BTC" none none
        none "json" [("s", PyVal.int 1)]).params "s" = some (PyVal.int 1) ∧
    some (PyVal.int 1) ≠ (none : Option PyVal) := by
  exact ⟨rfl, by decide⟩

/-- C9 (amended): the bulk request always carries both an `s` and a `u`
entry, even when the caller omits both timestamps, whereas the
single-metric request omits `s`, `u` and `i` whenever the corresponding
argument is absent, provided extraParams does not itself bind that
key. -/
theorem C9_param_presence (api_key path asset : String) (since untl : Option Int)
    (intv : Option String) (fmt : String) (kwargs : List (String × PyVal))
    (now : Int) (md : List (String × PyVal)) (bulkResp : Except PyError PyVal)
    (assets : Option (List String)) (interval : String) (maxDays : Int)
    (hgate : truthy ((dget md "bulk_supported").getD (PyVal.bool false)) = true)
    (hmax : dget BULK_MAX_DAYS interval = some maxDays) :
    (∃ r : Request,
      (fetch_bulk_metric api_key now (.ok md) bulkResp path assets since untl
          interval fmt kwargs).1 =
        [get_metric_metadata_request api_key path none, r] ∧
      (dget r.params "s").isSome = true ∧ (dget r.params "u").isSome = true) ∧
    (since = none → klast kwargs "s" = none →
      dget (fetch_metric_request api_key path asset since untl intv fmt
        kwargs).params "s" = none) ∧
    (untl = none → klast kwargs "u" = none →
      dget (fetch_metric_request api_key path asset since untl intv fmt
        kwargs).params "u" = none) ∧
    (intv = none → klast kwargs "i" = none →
      dget (fetch_metric_request api_key path asset since untl intv fmt
        kwargs).params "i" = none) := by
  refine ⟨?_, ?_, ?_, ?_⟩
  · rw [fetch_bulk_metric_run api_key now md bulkResp path assets since untl
      interval fmt kwargs maxDays hgate hmax]
    refine ⟨_, rfl, ?_, ?_⟩ <;> simp [make_request_prepare, dget_dset]
  · rintro rfl hs
    rcases untl with _ | u <;> rcases intv with _ | i <;>
      simp [fetch_metric_request, make_request_prepare, dget_dset, dget_dmerge,
        hs, dget]
  · rintro rfl hu
    rcases since with _ | s <;> rcases intv with _ | i <;>
      simp [fetch_metric_request, make_request_prepare, dget_dset, dget_dmerge,
        hu, dget]
  · rintro rfl hi
    rcases since with _ | s <;> rcases untl with _ | u <;>
      simp [fetch_metric_request, make_request_prepare, dget_dset, dget_dmerge,
        hi, dget]

/-- Witness for C9: both timestamps omitted everywhere — the bulk
request still carries `s` and `u`, the single-metric request carries
neither. -/
theorem C9_witness :
    (∃ r : Request,
      (fetch_bulk_metric "KEY" 1700000000 (.ok [("bulk_supported", PyVal.bool true)])
          (.ok (PyVal.int 0)) "market/price_usd_close" none none none "24h"
          "json" []).1 =
        [get_metric_metadata_request "KEY" "market/price_usd_close" none, r] ∧
      (dget r.params "s").isSome = true ∧ (dget r.params "u").isSome = true) ∧
    ((none : Option Int) = none → klast ([] : List (String × PyVal)) "s" = none →
      dget (fetch_metric_request "KEY" "market/price_usd_close" "BTC" none none
        none "json" []).params "s" = none) ∧
    ((none : Option Int) = none → klast ([] : List (String × PyVal)) "u" = none →
      dget (fetch_metric_request "KEY" "market/price_usd_close" "BTC" none none
        none "json" []).params "u" = none) ∧
    ((none : Option String) = none → klast ([] : List (String × PyVal)) "i" = none →
      dget (fetch_metric_request "KEY" "market/price_usd_close" "BTC" none none
        none "json" []).params "i" = none) :=
  C9_param_presence "KEY" "market/price_usd_close" "BTC" none none none "json"
    [] 1700000000 [("bulk_supported", PyVal.bool true)] (.ok (PyVal.int 0))
    none "24h" 31 (by decide) (by decide)

/-- C10 (confirmed): every outgoing request of every operation carries
`api_key` bound to the client's configured key, and this binding wins
over any same-named extraParams key because `_make_request` assigns it
after the caller's parameters are merged. -/
theorem C10_api_key_always :
    (∀ (api_key endpoint : String) (params : List (String × PyVal)),
      dget (make_request_prepare api_key endpoint params).params "api_key"
        = some (PyVal.str api_key)) ∧
    (∀ (api_key path asset : String) (since untl : Option Int)
        (intv : Option String) (fmt : String) (kwargs : List (String × PyVal)),
      dget (fetch_metric_request api_key path asset since untl intv fmt
        kwargs).params "api_key" = some (PyVal.str api_key)) ∧
    (∀ (api_key path : String) (asset : Option String),
      dget (get_metric_metadata_request api_key path asset).params "api_key"
        = some (PyVal.str api_key)) ∧
    (∀ (api_key : String) (now : Int)
        (metaResp : Except PyError (List (String × PyVal)))
        (bulkResp : Except PyError PyVal) (path : String)
        (assets : Option (List String)) (since untl : Option Int)
        (interval fmt : String) (kwargs : List (String × PyVal))
        (r : Request),
      r ∈ (fetch_bulk_metric api_key now metaResp bulkResp path assets since
        untl interval fmt kwargs).1 →
      dget r.params "api_key" = some (PyVal.str api_key)) := by
  refine ⟨?_, ?_, ?_, ?_⟩
  · intro api_key endpoint params
    simp [make_request_prepare, dget_dset_self]
  · intro api_key path asset since untl intv fmt kwargs
    simp [fetch_metric_request, make_request_prepare, dget_dset_self]
  · intro api_key path asset
    simp [get_metric_metadata_request, make_request_prepare, dget_dset_self]
  · intro api_key now metaResp bulkResp path assets since untl interval fmt
      kwargs r hr
    rcases metaResp with e | md
    · rw [fetch_bulk_metric_meta_error] at hr
      simp only [List.mem_singleton] at hr
      subst hr
      simp [get_metric_metadata_request, make_request_prepare, dget_dset_self]
    · rcases hgate : truthy ((dget md "bulk_supported").getD (PyVal.bool false)) with _ | _
      · rw [fetch_bulk_metric_gate_fail api_key now md bulkResp path assets
          since untl interval fmt kwargs hgate] at hr
        simp only [List.mem_singleton] at hr
        subst hr
        simp [get_metric_metadata_request, make_request_prepare, dget_dset_self]
      · rcases hmax : dget BULK_MAX_DAYS interval with _ | maxDays
        · rw [fetch_bulk_metric_bad_interval api_key now md bulkResp path assets
            since untl interval fmt kwargs hgate hmax] at hr
          simp only [List.mem_singleton] at hr
          subst hr
          simp [get_metric_metadata_request, make_request_prepare, dget_dset_self]
        · rw [fetch_bulk_metric_run api_key now md bulkResp path assets since
            untl interval fmt kwargs maxDays hgate hmax] at hr
          simp only [List.mem_cons, List.mem_singleton, List.not_mem_nil,
            or_false] at hr
          rcases hr with rfl | rfl <;>
            simp [get_metric_metadata_request, make_request_prepare,
              dget_dset_self]

/-- Witness for C10: the metadata request of a failing bulk run carries
the configured key. -/
theorem C10_witness :
    dget (make_request_prepare "KEY" "metadata/assets"
        [("api_key", PyVal.str "EVIL")]).params "api_key"
      = some (PyVal.str "KEY") ∧
    dget (get_metric_metadata_request "KEY" "market/price_usd_close" none).params
        "api_key" = some (PyVal.str "KEY") := by
  have h := C10_api_key_always
  exact ⟨h.1 "KEY" "metadata/assets" [("api_key", PyVal.str "EVIL")],
    h.2.2.1 "KEY" "market/price_usd_close" none⟩

end Glassnode
